import Mathlib

/-
Verification of the synchronization core of pyRfactor2SharedMemory.

The repository holds two revisions of the same design:
  * rF2MMap.py       (classes RF2MMap, MMapDataSet, SyncData, RF2SM)
  * sim_info_sync.py (classes rF2MMap, SimInfoSync)
Definitions under namespace RF2M embed rF2MMap.py; definitions under
namespace SIS embed sim_info_sync.py.

Modelling conventions:
  * The fixed-size ctypes vehicle array (MAX_MAPPED_VEHICLES slots) is
    modelled as a List VehicleSlot; loops written as
    for i in range(MAX_VEHICLES) over that array are modelled as full
    scans of the list (they coincide when the list has length
    MAX_VEHICLES, which is the length of every real buffer).
  * Python exceptions are modelled by Option: a function returns none
    exactly when the embedded code raises an uncaught exception.
  * A mmap region is a Region record.  Its field live is the content
    currently visible through the OS mapping, instOpen says whether the
    mapping is open, cache is the Python attribute holding the last
    produced output (None initially), and sharing is the
    _buffer_sharing / _direct_access_active flag.  ctypes from_buffer
    (a live view into the mapping) is modelled by MapView.liveView,
    ctypes from_buffer_copy by MapView.copyOf applied to the content
    read at that moment.
  * mmap.close() raising BufferError (live exported views) is modelled
    by the boolean parameter live_refs of close: when true the close
    call raises BufferError, which the source catches and logs, leaving
    the mapping open.
  * Wall-clock time (time.time()) is modelled as an integer number of
    seconds passed to each loop iteration (the claims only compare
    clock differences against whole-second thresholds), and the
    adaptive poll delay is recorded as an integer number of
    milliseconds: 500 stands for the 0.5 second idle delay of the
    source and 10 for its 0.01 second active delay.
-/

namespace PyRF2

/-- Modelled from the spec: the constant
rF2data.rFactor2Constants.MAX_MAPPED_VEHICLES is defined in rF2data.py,
which is not part of the sources; the spec (section 3) fixes the vehicle
array length N at 128. -/
def MAX_VEHICLES : Nat := 128

/-- Sentinel used by the source for a failed index lookup. -/
def INVALID_INDEX : Int := -1

/-- One slot of the vehicle array: the stable identifier mID and the
local-player flag mIsPlayer (other driving-state fields are opaque and
play no role in the claims). -/
structure VehicleSlot where
  mID : Int
  mIsPlayer : Bool
deriving DecidableEq

/-- Content of one shared-memory record: the two version stamps, the
vehicle counter and the vehicle array (all other fields are opaque). -/
structure RF2Buf where
  mVersionUpdateBegin : Nat
  mVersionUpdateEnd : Nat
  mNumVehicles : Nat
  mVehicles : List VehicleSlot
deriving DecidableEq

/-- Python list/ctypes-array subscription xs[i]: non-negative indices
index from the front, negative indices from the back, and an index out
of range raises (modelled by none). -/
def pyGet (xs : List VehicleSlot) (i : Int) : Option VehicleSlot :=
  if 0 ≤ i then xs.get? i.toNat
  else if (-i).toNat ≤ xs.length then xs.get? (xs.length - (-i).toNat)
  else none

/-- The loop body shared by both revisions that scans the vehicle array
for the first slot whose mIsPlayer flag is set, returning its index, or
INVALID_INDEX when no slot is flagged. -/
def scanPlayerIdx : List VehicleSlot → Nat → Int
  | [], _ => INVALID_INDEX
  | v :: rest, i => if v.mIsPlayer then (i : Int) else scanPlayerIdx rest (i + 1)

/-- The loop body shared by both revisions that scans the vehicle array
for the first slot whose mID equals mid, returning its index, or
INVALID_INDEX when no slot matches. -/
def scanMIDIdx (mid : Int) : List VehicleSlot → Nat → Int
  | [], _ => INVALID_INDEX
  | v :: rest, i => if v.mID = mid then (i : Int) else scanMIDIdx mid rest (i + 1)

/-- Python dict lookup d.get(k, default) over an association list where
the most recent assignment comes first. -/
def dictGet (d : List (Int × Nat)) (k : Int) (default : Int) : Int :=
  match d.find? (fun p => p.1 == k) with
  | some p => (p.2 : Int)
  | none => default

/-- Python dict assignment d[k] = v. -/
def dictSet (d : List (Int × Nat)) (k : Int) (v : Nat) : List (Int × Nat) :=
  (k, v) :: d

/-- The initial telemetry index dictionary of SyncData:
the dict comprehension mapping every index in range(128) to itself. -/
def init_tele_dict : List (Int × Nat) :=
  (List.range 128).map (fun (i : Nat) => (Int.ofNat i, i))

/-- What the mmap output attribute of a region can hold: a live ctypes
view into the mapping (from_buffer) or a detached copy taken at some
instant (from_buffer_copy). -/
inductive MapView where
  | liveView : MapView
  | copyOf : RF2Buf → MapView
deriving DecidableEq

/-- State of one mapped region. -/
structure Region where
  instOpen : Bool
  access_mode : Nat
  live : RF2Buf
  cache : Option MapView
  sharing : Bool
deriving DecidableEq

/-- Dereferencing the output attribute of a region: a live view reads
the mapped content, a copy reads the detached buffer, and a missing
output (attribute still None) raises on attribute access (none). -/
def Region.dataBuf (r : Region) : Option RF2Buf :=
  match r.cache with
  | none => none
  | some MapView.liveView => some r.live
  | some (MapView.copyOf b) => some b

/-- rF2MMap.version_check of sim_info_sync.py. -/
def version_check (b : RF2Buf) : Bool :=
  b.mVersionUpdateEnd == b.mVersionUpdateBegin

end PyRF2

namespace PyRF2.SIS

open PyRF2

/-- rF2MMap.copy_access of sim_info_sync.py: copy the mapped content,
install it when the version stamps agree, otherwise install it anyway
when no output has ever been cached (the attribute is still None), and
otherwise keep the previous output.  Reading a closed mapping raises. -/
def copy_access (r : Region) : Option Region :=
  if r.instOpen = false then none
  else
    let data_temp := r.live
    if version_check data_temp = true then
      some { r with cache := some (MapView.copyOf data_temp) }
    else if r.cache = none then
      some { r with cache := some (MapView.copyOf data_temp) }
    else
      some r

/-- rF2MMap.direct_access of sim_info_sync.py: on first call bind the
output to a live view of the mapping and set the active flag; further
calls return immediately. -/
def direct_access (r : Region) : Option Region :=
  if r.sharing = true then some r
  else if r.instOpen = false then none
  else some { r with cache := some MapView.liveView, sharing := true }

/-- rF2MMap.update of sim_info_sync.py. -/
def update (r : Region) : Option Region :=
  if r.access_mode ≠ 0 then direct_access r else copy_access r

/-- rF2MMap.close of sim_info_sync.py: one final copy_access, clear the
direct-access flag, then close the OS mapping; a BufferError from the
close call (live_refs) is caught and logged, leaving the mapping open. -/
def close (live_refs : Bool) (r : Region) : Option Region :=
  match copy_access r with
  | none => none
  | some r1 =>
    let r2 := { r1 with sharing := false }
    if live_refs then some r2 else some { r2 with instOpen := false }

/-- rF2MMap.create of sim_info_sync.py: record the access mode and open
the OS mapping (the mapped content itself is produced externally). -/
def create (mode : Nat) (r : Region) : Region :=
  { r with access_mode := mode, instOpen := true }

/-- State of a SimInfoSync instance (sim_info_sync.py). -/
structure SimInfoState where
  stopped : Bool
  updating : Bool
  restarting : Bool
  paused : Bool
  override_player_index : Bool
  player_scor_index : Int
  player_tele_index : Int
  player_scor_mid : Int
  player_scor : Option VehicleSlot
  player_tele : Option VehicleSlot
  access_mode : Nat
  info_scor : Region
  info_tele : Region
  info_ext : Region
  info_ffb : Region
deriving DecidableEq

/-- SimInfoSync.__find_local_scor_index: check the last found index
first; if that slot is not the player, scan all vehicles; return
INVALID_INDEX when no slot is flagged.  Subscription with an index out
of range raises (none). -/
def find_local_scor_index (data_scor : List VehicleSlot) (idx_last : Int) : Option Int :=
  match pyGet data_scor idx_last with
  | none => none
  | some v =>
    if v.mIsPlayer then some idx_last
    else some (scanPlayerIdx data_scor 0)

/-- SimInfoSync.__sync_local_tele_index: compare the telemetry mID at
the scoring index first; if different, scan all vehicles for a matching
mID; return INVALID_INDEX when none matches. -/
def sync_local_tele_index (data_tele : List VehicleSlot) (idx_scor : Int) (mid_scor : Int) :
    Option Int :=
  match pyGet data_tele idx_scor with
  | none => none
  | some v =>
    if v.mID = mid_scor then some idx_scor
    else some (scanMIDIdx mid_scor data_tele 0)

/-- SimInfoSync.__sync_local_player_data: resolve the scoring index
(unless overridden), cache the scoring mID and a deep copy of the
scoring slot, then resolve the telemetry index; when the telemetry
index is not found the call still reports success and leaves the cached
telemetry index and telemetry copy untouched.  The boolean result is
the return value of the source. -/
def sync_local_player_data (data_scor data_tele : List VehicleSlot) (s : SimInfoState) :
    Option (Bool × SimInfoState) :=
  let after_scor_index : SimInfoState → Option (Bool × SimInfoState) := fun s1 =>
    match pyGet data_scor s1.player_scor_index with
    | none => none
    | some vscor =>
      let s2 := { s1 with player_scor_mid := vscor.mID, player_scor := some vscor }
      match sync_local_tele_index data_tele s2.player_scor_index s2.player_scor_mid with
      | none => none
      | some idx_tele =>
        if idx_tele = INVALID_INDEX then some (true, s2)
        else
          match pyGet data_tele idx_tele with
          | none => none
          | some vtele =>
            some (true, { s2 with player_tele_index := idx_tele, player_tele := some vtele })
  if s.override_player_index then after_scor_index s
  else
    match find_local_scor_index data_scor s.player_scor_index with
    | none => none
    | some idx_scor =>
      if idx_scor = INVALID_INDEX then some (false, s)
      else after_scor_index { s with player_scor_index := idx_scor }

/-- SimInfoSync.sync_tele_index (the public one used by rf2TeleVeh):
read the scoring mID at idx_scor, compare against the telemetry mID at
the same index, else scan the telemetry array; INVALID_INDEX when no
match. -/
def sync_tele_index (s : SimInfoState) (idx_scor : Int) : Option Int :=
  match s.info_scor.dataBuf with
  | none => none
  | some ds =>
    match pyGet ds.mVehicles idx_scor with
    | none => none
    | some vs =>
      match s.info_tele.dataBuf with
      | none => none
      | some dt =>
        match pyGet dt.mVehicles idx_scor with
        | none => none
        | some vt =>
          if vt.mID = vs.mID then some idx_scor
          else some (scanMIDIdx vs.mID dt.mVehicles 0)

/-- SimInfoSync.rf2TeleVeh: with an index, look up the synced telemetry
index and subscript the telemetry array with it; with no index (none)
return the cached local-player telemetry copy. -/
def rf2TeleVeh (s : SimInfoState) (index : Option Int) : Option VehicleSlot :=
  match index with
  | none => s.player_tele
  | some idx =>
    match sync_tele_index s idx with
    | none => none
    | some i =>
      match s.info_tele.dataBuf with
      | none => none
      | some dt => pyGet dt.mVehicles i

/-- SimInfoSync.copy_mmap_player: deep copy the scoring and telemetry
slots at index INVALID_INDEX into the local-player caches. -/
def copy_mmap_player (s : SimInfoState) : Option SimInfoState :=
  match s.info_scor.dataBuf with
  | none => none
  | some ds =>
    match pyGet ds.mVehicles INVALID_INDEX with
    | none => none
    | some vs =>
      match s.info_tele.dataBuf with
      | none => none
      | some dt =>
        match pyGet dt.mVehicles INVALID_INDEX with
        | none => none
        | some vt => some { s with player_scor := some vs, player_tele := some vt }

/-- SimInfoSync.create_mmap: create all four regions with the current
access mode. -/
def create_mmap (s : SimInfoState) : SimInfoState :=
  { s with
    info_scor := create s.access_mode s.info_scor
    info_tele := create s.access_mode s.info_tele
    info_ext := create s.access_mode s.info_ext
    info_ffb := create s.access_mode s.info_ffb }

/-- SimInfoSync.update_mmap: update all four regions in order. -/
def update_mmap (s : SimInfoState) : Option SimInfoState :=
  match update s.info_scor with
  | none => none
  | some rs =>
    match update s.info_tele with
    | none => none
    | some rt =>
      match update s.info_ext with
      | none => none
      | some re =>
        match update s.info_ffb with
        | none => none
        | some rf =>
          some { s with info_scor := rs, info_tele := rt, info_ext := re, info_ffb := rf }

/-- SimInfoSync.close_mmap: close all four regions in order. -/
def close_mmap (live_refs : Bool) (s : SimInfoState) : Option SimInfoState :=
  match close live_refs s.info_scor with
  | none => none
  | some rs =>
    match close live_refs s.info_tele with
    | none => none
    | some rt =>
      match close live_refs s.info_ext with
      | none => none
      | some re =>
        match close live_refs s.info_ffb with
        | none => none
        | some rf =>
          some { s with info_scor := rs, info_tele := rt, info_ext := re, info_ffb := rf }

/-- SimInfoSync.start: a no-op unless stopped; otherwise create the
mappings, update them once, copy the default player slots, and mark the
updating thread as started. -/
def start (s : SimInfoState) : Option SimInfoState :=
  if s.stopped = false then some s
  else
    match update_mmap (create_mmap s) with
    | none => none
    | some s2 =>
      match copy_mmap_player s2 with
      | none => none
      | some s3 => some { s3 with updating := true, stopped := false }

/-- SimInfoSync.stop: clear the updating flag, join the update thread
(whose exit sets stopped and clears paused), then close the mappings;
there is no guard against an already-stopped instance. -/
def stop (live_refs : Bool) (s : SimInfoState) : Option SimInfoState :=
  let s1 := { s with updating := false, stopped := true, paused := false }
  close_mmap live_refs s1

/-- SimInfoSync.setPlayerIndex: store the argument as the player
scoring index, unclamped. -/
def setPlayerIndex (s : SimInfoState) (idx : Int) : SimInfoState :=
  { s with player_scor_index := idx }

/-- Local state of the SimInfoSync.__update loop. -/
structure LoopState where
  reset_counter : Nat
  paused : Bool
  last_version_update : Nat
  data_freezed : Bool
  check_timer_start : Int
  update_delay : Int
deriving DecidableEq

/-- The retry-counter block of the SimInfoSync.__update loop body: run
only while not frozen, it counts consecutive resolution misses (capped
below 6), resets the counter and clears paused on a hit, and activates
paused when the counter reaches 5. -/
def retry_block (data_synced : Bool) (s : LoopState) : LoopState :=
  if s.data_freezed = false then
    let sa :=
      if data_synced = false ∧ s.reset_counter < 6 then
        { s with reset_counter := s.reset_counter + 1 }
      else if data_synced = true then
        { s with reset_counter := 0, paused := false }
      else s
    if sa.reset_counter = 5 then { sa with paused := true } else sa
  else s

/-- One iteration of the SimInfoSync.__update loop body, with the
current wall clock (now), the outcome of the player-data resolution
(data_synced, consulted only while not frozen) and the current scoring
mVersionUpdateEnd value (ver) as external inputs. -/
def update_step (now : Int) (data_synced : Bool) (ver : Nat) (s : LoopState) : LoopState :=
  let s1 := retry_block data_synced s
  let s2 :=
    if now - s1.check_timer_start > 5 then
      let sb :=
        if s1.data_freezed = false ∧ s1.last_version_update = ver then
          { s1 with update_delay := 500, data_freezed := true, paused := true }
        else s1
      { sb with last_version_update := ver, check_timer_start := now }
    else s1
  if s2.data_freezed = true ∧ s2.last_version_update ≠ ver then
    { s2 with update_delay := 10, data_freezed := false, paused := false }
  else s2

/-- Iterating the loop body over a list of resolution outcomes with the
clock and scoring version held fixed at zero, so that only the retry
logic is exercised (the five-second sampling timer never fires). -/
def retry_run (misses : List Bool) (s : LoopState) : LoopState :=
  misses.foldl (fun st b => update_step 0 b 0 st) s

/-- Loop state at the moment the SimInfoSync.__update loop is active
(not frozen) with no pending misses. -/
def retry_start : LoopState :=
  { reset_counter := 0, paused := false, last_version_update := 0,
    data_freezed := false, check_timer_start := 0, update_delay := 10 }

end PyRF2.SIS

namespace PyRF2.RF2M

open PyRF2

/-- RF2MMap.__buffer_share of rF2MMap.py: on first call set the sharing
flag and bind the output to a live view of the mapping; further calls
do nothing. -/
def buffer_share (r : Region) : Option Region :=
  if r.sharing = false then
    if r.instOpen = false then none
    else some { r with sharing := true, cache := some MapView.liveView }
  else some r

/-- RF2MMap.__buffer_copy of rF2MMap.py: copy the mapped content and
install it when the version stamps agree or when skip_check is set,
otherwise keep the previous output.  Reading a closed mapping raises. -/
def buffer_copy (skip_check : Bool) (r : Region) : Option Region :=
  if r.instOpen = false then none
  else
    let temp := r.live
    if temp.mVersionUpdateEnd = temp.mVersionUpdateBegin ∨ skip_check = true then
      some { r with cache := some (MapView.copyOf temp) }
    else some r

/-- RF2MMap.update of rF2MMap.py. -/
def update (r : Region) : Option Region :=
  if r.access_mode ≠ 0 then buffer_share r else buffer_copy false r

/-- RF2MMap.create of rF2MMap.py: record the access mode, open the OS
mapping and take an initial unchecked copy. -/
def create (mode : Nat) (r : Region) : Option Region :=
  buffer_copy true { r with access_mode := mode, instOpen := true }

/-- RF2MMap.close of rF2MMap.py: take one final copy with the version
check skipped, clear the sharing flag, then close the OS mapping; a
BufferError from the close call (live_refs) is caught and logged,
leaving the mapping open. -/
def close (live_refs : Bool) (r : Region) : Option Region :=
  match buffer_copy true r with
  | none => none
  | some r1 =>
    let r2 := { r1 with sharing := false }
    if live_refs then some r2 else some { r2 with instOpen := false }

/-- State of a SyncData instance together with its MMapDataSet
(rF2MMap.py). -/
structure SyncDataState where
  updating : Bool
  paused : Bool
  override_player_index : Bool
  player_scor_index : Int
  player_scor : Option VehicleSlot
  player_tele : Option VehicleSlot
  tele_idx_dict : List (Int × Nat)
  scor : Region
  tele : Region
  ext : Region
  ffb : Region
deriving DecidableEq

/-- SyncData.copy_player_scor: copy the scoring slot at the given index
(default INVALID_INDEX) into the player scoring cache. -/
def copy_player_scor (s : SyncDataState) (index : Int) : Option SyncDataState :=
  match s.scor.dataBuf with
  | none => none
  | some ds =>
    match pyGet ds.mVehicles index with
    | none => none
    | some v => some { s with player_scor := some v }

/-- SyncData.copy_player_tele: copy the telemetry slot at the given
index (default INVALID_INDEX) into the player telemetry cache. -/
def copy_player_tele (s : SyncDataState) (index : Int) : Option SyncDataState :=
  match s.tele.dataBuf with
  | none => none
  | some dt =>
    match pyGet dt.mVehicles index with
    | none => none
    | some v => some { s with player_tele := some v }

/-- SyncData.__local_scor_index: scan the scoring vehicle array for the
first slot whose mIsPlayer flag is set. -/
def local_scor_index (s : SyncDataState) : Option Int :=
  match s.scor.dataBuf with
  | none => none
  | some ds => some (scanPlayerIdx ds.mVehicles 0)

/-- SyncData.__update_tele_index_dict: for each index below the vehicle
count, map that telemetry slot mID to the index. -/
def update_tele_dict (teleVeh : List VehicleSlot) (num : Nat) (d : List (Int × Nat)) :
    Option (List (Int × Nat)) :=
  (List.range num).foldlM
    (fun acc i =>
      match teleVeh.get? i with
      | none => none
      | some v => some (dictSet acc v.mID i))
    d

/-- SyncData.sync_tele_index: read the scoring mID at scor_idx and look
it up in the telemetry index dictionary, INVALID_INDEX when absent. -/
def sync_tele_index (s : SyncDataState) (scor_idx : Int) : Option Int :=
  match s.scor.dataBuf with
  | none => none
  | some ds =>
    match pyGet ds.mVehicles scor_idx with
    | none => none
    | some v => some (dictGet s.tele_idx_dict v.mID INVALID_INDEX)

/-- SyncData.__sync_player_data: resolve the scoring index (unless
overridden), then copy the player scoring and telemetry slots; the
boolean result is the return value of the source. -/
def sync_player_data (s : SyncDataState) : Option (Bool × SyncDataState) :=
  let copy_phase : SyncDataState → Option (Bool × SyncDataState) := fun s1 =>
    match copy_player_scor s1 s1.player_scor_index with
    | none => none
    | some s2 =>
      match sync_tele_index s2 s2.player_scor_index with
      | none => none
      | some ti =>
        match copy_player_tele s2 ti with
        | none => none
        | some s3 => some (true, s3)
  if s.override_player_index = false then
    match local_scor_index s with
    | none => none
    | some idx =>
      if idx = INVALID_INDEX then some (false, s)
      else copy_phase { s with player_scor_index := idx }
  else copy_phase s

/-- MMapDataSet.create_mmap: scoring and telemetry with the shared
access mode, extended and force feedback always in direct mode. -/
def create_mmap (mode : Nat) (s : SyncDataState) : Option SyncDataState :=
  match create mode s.scor with
  | none => none
  | some rs =>
    match create mode s.tele with
    | none => none
    | some rt =>
      match create 1 s.ext with
      | none => none
      | some re =>
        match create 1 s.ffb with
        | none => none
        | some rf => some { s with scor := rs, tele := rt, ext := re, ffb := rf }

/-- MMapDataSet.close_mmap: close all four regions in order. -/
def close_mmap (live_refs : Bool) (s : SyncDataState) : Option SyncDataState :=
  match close live_refs s.scor with
  | none => none
  | some rs =>
    match close live_refs s.tele with
    | none => none
    | some rt =>
      match close live_refs s.ext with
      | none => none
      | some re =>
        match close live_refs s.ffb with
        | none => none
        | some rf => some { s with scor := rs, tele := rt, ext := re, ffb := rf }

/-- SyncData.start: a logged no-op while already updating; otherwise
create the mappings, build the telemetry index dictionary, sync the
player data (falling back to the default copies at INVALID_INDEX when
no player is found) and start the update thread. -/
def start (mode : Nat) (s : SyncDataState) : Option SyncDataState :=
  if s.updating = true then some s
  else
    match create_mmap mode { s with updating := true } with
    | none => none
    | some s1 =>
      match s1.tele.dataBuf with
      | none => none
      | some dt =>
        match update_tele_dict dt.mVehicles dt.mNumVehicles s1.tele_idx_dict with
        | none => none
        | some d =>
          match sync_player_data { s1 with tele_idx_dict := d } with
          | none => none
          | some (true, s3) => some s3
          | some (false, s3) =>
            match copy_player_scor s3 INVALID_INDEX with
            | none => none
            | some s4 =>
              match copy_player_tele s4 INVALID_INDEX with
              | none => none
              | some s5 => some s5

/-- SyncData.stop: a logged no-op while already stopped; otherwise
signal and join the update thread, then close the mappings. -/
def stop (live_refs : Bool) (s : SyncDataState) : Option SyncDataState :=
  if s.updating = true then
    close_mmap live_refs { s with updating := false }
  else some s

/-- RF2SM.setPlayerIndex: store the argument clamped into
the interval from INVALID_INDEX to MAX_VEHICLES - 1. -/
def rf2sm_setPlayerIndex (s : SyncDataState) (index : Int) : SyncDataState :=
  { s with player_scor_index := min (max index INVALID_INDEX) ((MAX_VEHICLES : Int) - 1) }

/-- RF2SM.rf2TeleVeh: with an index, feed it through
SyncData.sync_tele_index and subscript the telemetry array with the
result; with no index return the cached local-player telemetry copy. -/
def rf2sm_rf2TeleVeh (s : SyncDataState) (index : Option Int) : Option VehicleSlot :=
  match index with
  | none => s.player_tele
  | some idx =>
    match sync_tele_index s idx with
    | none => none
    | some ti =>
      match s.tele.dataBuf with
      | none => none
      | some dt => pyGet dt.mVehicles ti

/-- Local state of the SyncData.__update loop. -/
structure SyncLoopState where
  reset_counter : Nat
  paused : Bool
  freezed_version : Nat
  last_version_update : Nat
  last_update_time : Int
  data_freezed : Bool
  update_delay : Int
deriving DecidableEq

/-- The retry-counter block of the SyncData.__update loop body of
rF2MMap.py, identical to the one of sim_info_sync.py. -/
def sync_retry_block (data_synced : Bool) (s : SyncLoopState) : SyncLoopState :=
  if s.data_freezed = false then
    let sa :=
      if data_synced = false ∧ s.reset_counter < 6 then
        { s with reset_counter := s.reset_counter + 1 }
      else if data_synced = true then
        { s with reset_counter := 0, paused := false }
      else s
    if sa.reset_counter = 5 then { sa with paused := true } else sa
  else s

/-- One iteration of the SyncData.__update loop body of rF2MMap.py,
with the current wall clock (now), the outcome of the player-data
resolution (data_synced, consulted only while not frozen) and the
current scoring mVersionUpdateEnd value (ver) as external inputs. -/
def sync_update_step (now : Int) (data_synced : Bool) (ver : Nat) (s : SyncLoopState) :
    SyncLoopState :=
  let s1 := sync_retry_block data_synced s
  let s2 :=
    if s1.last_version_update ≠ ver then
      { s1 with last_update_time := now, last_version_update := ver }
    else s1
  let s3 :=
    if s2.data_freezed = false ∧ now - s2.last_update_time > 2 then
      { s2 with update_delay := 500, data_freezed := true, paused := true,
                freezed_version := s2.last_version_update }
    else s2
  if s3.data_freezed = true ∧ s3.freezed_version ≠ s3.last_version_update then
    { s3 with update_delay := 10, data_freezed := false, paused := false }
  else s3

/-- Iterating the SyncData loop body over a list of resolution outcomes
with the clock and scoring version held fixed at zero, so that only the
retry logic is exercised (the freeze timer never fires because the
version matches and no time passes). -/
def sync_retry_run (misses : List Bool) (s : SyncLoopState) : SyncLoopState :=
  misses.foldl (fun st b => sync_update_step 0 b 0 st) s

/-- Loop state at the moment the SyncData.__update loop is active (not
frozen) with no pending misses. -/
def sync_retry_start : SyncLoopState :=
  { reset_counter := 0, paused := false, freezed_version := 0,
    last_version_update := 0, last_update_time := 0,
    data_freezed := false, update_delay := 10 }

end PyRF2.RF2M

namespace PyRF2

lemma pyGet_mem {xs : List VehicleSlot} {i : Int} {v : VehicleSlot}
    (h : pyGet xs i = some v) : v ∈ xs := by
  unfold pyGet at h
  split at h
  · exact List.get?_mem h
  · split at h
    · exact List.get?_mem h
    · exact absurd h (by simp)

lemma pyGet_invalid {xs : List VehicleSlot} (h : xs ≠ []) :
    pyGet xs INVALID_INDEX = some (xs.getLast h) := by
  have hlen : 0 < xs.length := List.length_pos.mpr h
  unfold pyGet INVALID_INDEX
  rw [if_neg (by norm_num), if_pos (by simpa using hlen)]
  simp only [Int.neg_neg, Int.toNat_one]
  rw [List.getLast_eq_get]
  exact List.get?_eq_get _

lemma scanMIDIdx_eq_invalid {mid : Int} {l : List VehicleSlot}
    (h : ∀ v ∈ l, v.mID ≠ mid) : ∀ i : Nat, scanMIDIdx mid l i = INVALID_INDEX := by
  induction l with
  | nil => intro i; rfl
  | cons v rest ih =>
    intro i
    simp only [scanMIDIdx]
    rw [if_neg (h v (List.mem_cons_self v rest))]
    exact ih (fun w hw => h w (List.mem_cons_of_mem v hw)) (i + 1)

lemma scanPlayerIdx_eq_invalid {l : List VehicleSlot}
    (h : ∀ v ∈ l, v.mIsPlayer = false) : ∀ i : Nat, scanPlayerIdx l i = INVALID_INDEX := by
  induction l with
  | nil => intro i; rfl
  | cons v rest ih =>
    intro i
    simp only [scanPlayerIdx]
    rw [if_neg (by simp [h v (List.mem_cons_self v rest)])]
    exact ih (fun w hw => h w (List.mem_cons_of_mem v hw)) (i + 1)

/-- What it means for r to be the result the spec asks of a scoring
scan: the sentinel with no slot flagged, or the index of the first
flagged slot. -/
def isLeftmostPlayerResult (scor : List VehicleSlot) (r : Int) : Prop :=
  (r = INVALID_INDEX ∧ ∀ w ∈ scor, w.mIsPlayer = false) ∨
  (∃ pre v suf, scor = pre ++ v :: suf ∧ v.mIsPlayer = true ∧
    (∀ w ∈ pre, w.mIsPlayer = false) ∧ r = (pre.length : Int))

lemma scanPlayerIdx_spec_aux (l : List VehicleSlot) :
    ∀ i : Nat,
      (scanPlayerIdx l i = INVALID_INDEX ∧ ∀ w ∈ l, w.mIsPlayer = false) ∨
      (∃ pre v suf, l = pre ++ v :: suf ∧ v.mIsPlayer = true ∧
        (∀ w ∈ pre, w.mIsPlayer = false) ∧
        scanPlayerIdx l i = (i : Int) + (pre.length : Int)) := by
  induction l with
  | nil => intro i; left; exact ⟨rfl, by simp⟩
  | cons v rest ih =>
    intro i
    by_cases hv : v.mIsPlayer = true
    · right
      refine ⟨[], v, rest, rfl, hv, by simp, ?_⟩
      simp only [scanPlayerIdx]
      rw [if_pos hv]
      simp
    · have hstep : scanPlayerIdx (v :: rest) i = scanPlayerIdx rest (i + 1) := by
        simp only [scanPlayerIdx]
        rw [if_neg hv]
      rcases ih (i + 1) with ⟨h3, h4⟩ | ⟨pre, w, suf, heq, hw, hpre, hval⟩
      · left
        refine ⟨by rw [hstep]; exact h3, ?_⟩
        intro x hx
        rcases List.mem_cons.mp hx with rfl | hx
        · simpa using hv
        · exact h4 x hx
      · right
        refine ⟨v :: pre, w, suf, by simp [heq], hw, ?_, ?_⟩
        · intro x hx
          rcases List.mem_cons.mp hx with rfl | hx
          · simpa using hv
          · exact hpre x hx
        · rw [hstep, hval]
          simp only [List.length_cons]
          push_cast
          ring

lemma scanPlayerIdx_leftmost (l : List VehicleSlot) :
    isLeftmostPlayerResult l (scanPlayerIdx l 0) := by
  rcases scanPlayerIdx_spec_aux l 0 with h | ⟨pre, v, suf, h1, h2, h3, h4⟩
  · exact Or.inl h
  · exact Or.inr ⟨pre, v, suf, h1, h2, h3, by simpa using h4⟩

/-- A torn buffer used in concrete counterexamples. -/
def tornBuf : RF2Buf :=
  { mVersionUpdateBegin := 1, mVersionUpdateEnd := 2, mNumVehicles := 0, mVehicles := [] }

/-- A coherent buffer used in concrete counterexamples. -/
def goodBuf : RF2Buf :=
  { mVersionUpdateBegin := 3, mVersionUpdateEnd := 3, mNumVehicles := 0, mVehicles := [] }

/-- A freshly created copy-mode region whose mapped content is torn and
which has no cached snapshot yet. -/
def c1_region : Region :=
  { instOpen := true, access_mode := 0, live := tornBuf, cache := none, sharing := false }

/-- C1 counterexample: the cached snapshot of c1_region is None (its
previous value), the live buffer is torn, and yet copy_access of
sim_info_sync.py installs the torn copy instead of leaving the cache at
its previous value. -/
theorem C1_counterexample :
    tornBuf.mVersionUpdateBegin ≠ tornBuf.mVersionUpdateEnd ∧
    c1_region.cache = none ∧
    SIS.copy_access c1_region =
      some { c1_region with cache := some (MapView.copyOf tornBuf) } := by decide

/-- C1 amended: on an open region, a copy-mode update keeps the cached
snapshot when the stamps differ and a snapshot is already cached, and
installs a copy equal to the live content when the stamps agree; the
one divergence from the claim is copy_access of sim_info_sync.py, which
installs the torn copy when no snapshot has ever been cached. -/
theorem C1_amended (r : Region) (hopen : r.instOpen = true) :
    (r.live.mVersionUpdateEnd ≠ r.live.mVersionUpdateBegin → r.cache ≠ none →
       RF2M.buffer_copy false r = some r ∧ SIS.copy_access r = some r) ∧
    (r.live.mVersionUpdateEnd ≠ r.live.mVersionUpdateBegin → r.cache = none →
       RF2M.buffer_copy false r = some r ∧
       SIS.copy_access r = some { r with cache := some (MapView.copyOf r.live) }) ∧
    (r.live.mVersionUpdateEnd = r.live.mVersionUpdateBegin →
       RF2M.buffer_copy false r = some { r with cache := some (MapView.copyOf r.live) } ∧
       SIS.copy_access r = some { r with cache := some (MapView.copyOf r.live) }) := by
  have hno : ¬ r.instOpen = false := by rw [hopen]; simp
  refine ⟨?_, ?_, ?_⟩
  · intro hne hcache
    constructor
    · unfold RF2M.buffer_copy
      rw [if_neg hno, if_neg (by simp [hne])]
    · unfold SIS.copy_access
      rw [if_neg hno, if_neg (by simp [version_check, hne]), if_neg hcache]
  · intro hne hcache
    constructor
    · unfold RF2M.buffer_copy
      rw [if_neg hno, if_neg (by simp [hne])]
    · unfold SIS.copy_access
      rw [if_neg hno, if_neg (by simp [version_check, hne]), if_pos hcache]
  · intro heq
    constructor
    · unfold RF2M.buffer_copy
      rw [if_neg hno, if_pos (Or.inl heq)]
    · unfold SIS.copy_access
      rw [if_neg hno, if_pos (by simp [version_check, heq])]

/-- A copy-mode region with a torn live buffer and a previously cached
good snapshot. -/
def c1w_region : Region :=
  { instOpen := true, access_mode := 0, live := tornBuf,
    cache := some (MapView.copyOf goodBuf), sharing := false }

/-- C1 witness: on a region with a torn live buffer and a cached good
snapshot, both copy paths keep the previous snapshot. -/
theorem C1_amended_witness :
    RF2M.buffer_copy false c1w_region = some c1w_region ∧
    SIS.copy_access c1w_region = some c1w_region :=
  (C1_amended c1w_region (by decide)).1 (by decide) (by decide)

/-- C2: in both background loops, while not frozen, runs of up to four
consecutive resolution misses leave paused false, the fifth consecutive
miss flips paused to true, and a run of four misses followed by a hit
resets the counter to zero (restoring the initial loop state exactly)
with paused false at every point of the run. -/
theorem C2_retry_debounce :
    ∀ n : Fin 5, ∀ j : Fin 6,
      ((SIS.retry_run (List.replicate n.val false) SIS.retry_start).paused = false) ∧
      ((SIS.retry_run (List.replicate 5 false) SIS.retry_start).paused = true) ∧
      ((SIS.retry_run (List.replicate 5 false) SIS.retry_start).reset_counter = 5) ∧
      (SIS.retry_run (List.replicate 4 false ++ [true]) SIS.retry_start = SIS.retry_start) ∧
      ((SIS.retry_run ((List.replicate 4 false ++ [true]).take j.val)
          SIS.retry_start).paused = false) ∧
      ((RF2M.sync_retry_run (List.replicate n.val false) RF2M.sync_retry_start).paused
          = false) ∧
      ((RF2M.sync_retry_run (List.replicate 5 false) RF2M.sync_retry_start).paused = true) ∧
      ((RF2M.sync_retry_run (List.replicate 5 false) RF2M.sync_retry_start).reset_counter
          = 5) ∧
      (RF2M.sync_retry_run (List.replicate 4 false ++ [true]) RF2M.sync_retry_start
          = RF2M.sync_retry_start) ∧
      ((RF2M.sync_retry_run ((List.replicate 4 false ++ [true]).take j.val)
          RF2M.sync_retry_start).paused = false) := by decide

/-- C3: when the scoring index resolves (no override, a flagged slot is
found) but no telemetry slot carries the matching mID this tick,
__sync_local_player_data of sim_info_sync.py still returns True and the
resulting state keeps the cached player telemetry index and telemetry
copy at their previous values, updating only the scoring side. -/
theorem C3_partial_match (scor tele : List VehicleSlot) (s : SIS.SimInfoState)
    (idx : Int) (vs vt : VehicleSlot)
    (hov : s.override_player_index = false)
    (hfind : SIS.find_local_scor_index scor s.player_scor_index = some idx)
    (hidx : idx ≠ INVALID_INDEX)
    (hvs : pyGet scor idx = some vs)
    (hvt : pyGet tele idx = some vt)
    (hmiss : ∀ v ∈ tele, v.mID ≠ vs.mID) :
    SIS.sync_local_player_data scor tele s =
      some (true, { s with player_scor_index := idx, player_scor_mid := vs.mID,
                           player_scor := some vs }) ∧
    ({ s with player_scor_index := idx, player_scor_mid := vs.mID,
              player_scor := some vs} : SIS.SimInfoState).player_tele_index
      = s.player_tele_index ∧
    ({ s with player_scor_index := idx, player_scor_mid := vs.mID,
              player_scor := some vs} : SIS.SimInfoState).player_tele = s.player_tele := by
  refine ⟨?_, rfl, rfl⟩
  have hvt_ne : vt.mID ≠ vs.mID := hmiss vt (pyGet_mem hvt)
  have hscan : scanMIDIdx vs.mID tele 0 = INVALID_INDEX := scanMIDIdx_eq_invalid hmiss 0
  simp only [SIS.sync_local_player_data, SIS.sync_local_tele_index]
  rw [if_neg (by rw [hov]; exact Bool.false_ne_true)]
  rw [hfind]
  try dsimp only
  rw [if_neg hidx]
  try dsimp only
  rw [hvs]
  try dsimp only
  rw [hvt]
  try dsimp only
  rw [if_neg hvt_ne]
  try dsimp only
  rw [hscan]
  try dsimp only
  rw [if_pos rfl]

/-- Concrete state for the C3 witness: fresh engine state with the
cached scoring index pointing at slot 0 and no override. -/
def c3w_state : SIS.SimInfoState :=
  { stopped := true, updating := false, restarting := false, paused := true,
    override_player_index := false, player_scor_index := 0,
    player_tele_index := INVALID_INDEX, player_scor_mid := 0,
    player_scor := none, player_tele := none, access_mode := 0,
    info_scor := c1_region, info_tele := c1_region,
    info_ext := c1_region, info_ffb := c1_region }

/-- C3 witness: a one-car scoring array with the player flagged and a
telemetry array with no matching mID. -/
theorem C3_partial_match_witness :
    SIS.sync_local_player_data
        [{ mID := 42, mIsPlayer := true }] [{ mID := 7, mIsPlayer := false }] c3w_state =
      some (true,
        { c3w_state with
            player_scor_index := 0, player_scor_mid := 42,
            player_scor := some { mID := 42, mIsPlayer := true } }) :=
  (C3_partial_match [{ mID := 42, mIsPlayer := true }] [{ mID := 7, mIsPlayer := false }]
    c3w_state 0 { mID := 42, mIsPlayer := true } { mID := 7, mIsPlayer := false }
    (by decide) (by decide) (by decide) (by decide) (by decide) (by decide)).1

lemma sis_retry_block_inv (b : Bool) (s : SIS.LoopState) :
    (SIS.retry_block b s).data_freezed = s.data_freezed ∧
    (SIS.retry_block b s).check_timer_start = s.check_timer_start ∧
    (SIS.retry_block b s).last_version_update = s.last_version_update ∧
    (SIS.retry_block b s).update_delay = s.update_delay := by
  unfold SIS.retry_block
  split_ifs <;> simp_all <;> (try (split_ifs <;> simp_all))

lemma rf2m_retry_block_inv (b : Bool) (s : RF2M.SyncLoopState) :
    (RF2M.sync_retry_block b s).data_freezed = s.data_freezed ∧
    (RF2M.sync_retry_block b s).last_update_time = s.last_update_time ∧
    (RF2M.sync_retry_block b s).last_version_update = s.last_version_update ∧
    (RF2M.sync_retry_block b s).freezed_version = s.freezed_version ∧
    (RF2M.sync_retry_block b s).update_delay = s.update_delay := by
  unfold RF2M.sync_retry_block
  split_ifs <;> simp_all <;> (try (split_ifs <;> simp_all))

/-- C4: in both background loops, whenever the loop observes (at one of
its version checks) that the scoring mVersionUpdateEnd has not advanced
over the whole check window - longer than 5 seconds of wall clock - the
iteration sets paused to true, freezes and widens the poll delay to
500 ms; and an iteration of the frozen loop that observes a changed
version sets paused back to false and narrows the poll delay to 10 ms.
In sim_info_sync.py the check window opens 5 seconds after the previous
check; in rF2MMap.py the freeze threshold is 2 seconds, so there too any
version unchanged for more than 5 seconds has paused the loop. -/
theorem C4_freeze_pause (now : Int) (synced : Bool) (ver : Nat)
    (s : SIS.LoopState) (t : RF2M.SyncLoopState) :
    (s.data_freezed = false → now - s.check_timer_start > 5 →
     s.last_version_update = ver →
      ((SIS.update_step now synced ver s).paused = true ∧
       (SIS.update_step now synced ver s).update_delay = 500 ∧
       (SIS.update_step now synced ver s).data_freezed = true)) ∧
    (s.data_freezed = true → ¬ (now - s.check_timer_start > 5) →
     s.last_version_update ≠ ver →
      ((SIS.update_step now synced ver s).paused = false ∧
       (SIS.update_step now synced ver s).update_delay = 10 ∧
       (SIS.update_step now synced ver s).data_freezed = false)) ∧
    (t.data_freezed = false → now - t.last_update_time > 5 →
     t.last_version_update = ver →
      ((RF2M.sync_update_step now synced ver t).paused = true ∧
       (RF2M.sync_update_step now synced ver t).update_delay = 500 ∧
       (RF2M.sync_update_step now synced ver t).data_freezed = true)) ∧
    (t.data_freezed = true → t.freezed_version ≠ ver →
      ((RF2M.sync_update_step now synced ver t).paused = false ∧
       (RF2M.sync_update_step now synced ver t).update_delay = 10 ∧
       (RF2M.sync_update_step now synced ver t).data_freezed = false)) := by
  obtain ⟨e1, e2, e3, e4⟩ := sis_retry_block_inv synced s
  obtain ⟨f1, f2, f3, f4, f5⟩ := rf2m_retry_block_inv synced t
  refine ⟨?_, ?_, ?_, ?_⟩
  · intro h1 h2 h3
    simp only [SIS.update_step]
    split_ifs <;> simp_all <;> omega
  · intro h1 h2 h3
    simp only [SIS.update_step]
    split_ifs <;> simp_all <;> omega
  · intro h1 h2 h3
    simp only [RF2M.sync_update_step]
    split_ifs <;> simp_all <;> omega
  · intro h1 h2
    simp only [RF2M.sync_update_step]
    split_ifs <;> simp_all <;> omega

/-- Active, unfrozen loop state with the last sampled version 3, timer
started at time 0 (sim_info_sync.py). -/
def c4_active : SIS.LoopState :=
  { reset_counter := 0, paused := false, last_version_update := 3,
    data_freezed := false, check_timer_start := 0, update_delay := 10 }

/-- Frozen loop state with the last sampled version 3
(sim_info_sync.py). -/
def c4_frozen : SIS.LoopState :=
  { reset_counter := 0, paused := true, last_version_update := 3,
    data_freezed := true, check_timer_start := 0, update_delay := 500 }

/-- Active, unfrozen loop state with last version 3 seen at time 0
(rF2MMap.py). -/
def c4_sync_active : RF2M.SyncLoopState :=
  { reset_counter := 0, paused := false, freezed_version := 0,
    last_version_update := 3, last_update_time := 0,
    data_freezed := false, update_delay := 10 }

/-- Frozen loop state that froze at version 3 (rF2MMap.py). -/
def c4_sync_frozen : RF2M.SyncLoopState :=
  { reset_counter := 0, paused := true, freezed_version := 3,
    last_version_update := 3, last_update_time := 0,
    data_freezed := true, update_delay := 500 }

/-- C4 witness: six seconds of unchanged version 3 freeze and pause
both loops at a 500 ms delay; a later change to version 4 unpauses both
back to the 10 ms delay. -/
theorem C4_freeze_pause_witness :
    ((SIS.update_step 6 true 3 c4_active).paused = true ∧
     (SIS.update_step 6 true 3 c4_active).update_delay = 500 ∧
     (SIS.update_step 6 true 3 c4_active).data_freezed = true) ∧
    ((SIS.update_step 1 true 4 c4_frozen).paused = false ∧
     (SIS.update_step 1 true 4 c4_frozen).update_delay = 10 ∧
     (SIS.update_step 1 true 4 c4_frozen).data_freezed = false) ∧
    ((RF2M.sync_update_step 6 true 3 c4_sync_active).paused = true ∧
     (RF2M.sync_update_step 6 true 3 c4_sync_active).update_delay = 500 ∧
     (RF2M.sync_update_step 6 true 3 c4_sync_active).data_freezed = true) ∧
    ((RF2M.sync_update_step 1 true 4 c4_sync_frozen).paused = false ∧
     (RF2M.sync_update_step 1 true 4 c4_sync_frozen).update_delay = 10 ∧
     (RF2M.sync_update_step 1 true 4 c4_sync_frozen).data_freezed = false) :=
  ⟨(C4_freeze_pause 6 true 3 c4_active c4_sync_active).1 (by decide) (by decide) (by decide),
   (C4_freeze_pause 1 true 4 c4_frozen c4_sync_frozen).2.1
     (by decide) (by decide) (by decide),
   (C4_freeze_pause 6 true 3 c4_active c4_sync_active).2.2.1
     (by decide) (by decide) (by decide),
   (C4_freeze_pause 1 true 4 c4_frozen c4_sync_frozen).2.2.2 (by decide) (by decide)⟩

/-- Scoring array for the C5 counterexample: slots 0 and 2 both carry
the local-player flag (slot 2 being the index cached from an earlier
tick), the remaining 125 slots are inactive. -/
def c5_scor : List VehicleSlot :=
  { mID := 11, mIsPlayer := true } :: { mID := 12, mIsPlayer := false } ::
    { mID := 13, mIsPlayer := true } :: List.replicate 125 { mID := 0, mIsPlayer := false }

set_option maxRecDepth 10000 in
/-- C5 counterexample: on a full-size scoring array whose slot 0 is
flagged, __find_local_scor_index of sim_info_sync.py called with the
cached index 2 (also flagged) returns 2, not the smallest flagged
index 0. -/
theorem C5_counterexample :
    c5_scor.length = MAX_VEHICLES ∧
    c5_scor.get? 0 = some { mID := 11, mIsPlayer := true } ∧
    (VehicleSlot.mIsPlayer { mID := 11, mIsPlayer := true }) = true ∧
    SIS.find_local_scor_index c5_scor 2 = some 2 := by decide

/-- C5 amended: __local_scor_index of rF2MMap.py returns the smallest
flagged index (or INVALID_INDEX when none is flagged, without raising);
__find_local_scor_index of sim_info_sync.py first returns the cached
index whenever that slot is flagged, and only otherwise scans for the
smallest flagged index; when no slot is flagged both return
INVALID_INDEX. -/
theorem C5_amended (t : RF2M.SyncDataState) (ds : RF2Buf) (idx_last : Int) (v : VehicleSlot)
    (hds : t.scor.dataBuf = some ds)
    (hget : pyGet ds.mVehicles idx_last = some v) :
    RF2M.local_scor_index t = some (scanPlayerIdx ds.mVehicles 0) ∧
    isLeftmostPlayerResult ds.mVehicles (scanPlayerIdx ds.mVehicles 0) ∧
    SIS.find_local_scor_index ds.mVehicles idx_last =
      some (if v.mIsPlayer = true then idx_last else scanPlayerIdx ds.mVehicles 0) ∧
    ((∀ w ∈ ds.mVehicles, w.mIsPlayer = false) →
      scanPlayerIdx ds.mVehicles 0 = INVALID_INDEX ∧
      SIS.find_local_scor_index ds.mVehicles idx_last = some INVALID_INDEX) := by
  have hred : SIS.find_local_scor_index ds.mVehicles idx_last
      = if v.mIsPlayer = true then some idx_last
        else some (scanPlayerIdx ds.mVehicles 0) := by
    unfold SIS.find_local_scor_index
    rw [hget]
  refine ⟨?_, scanPlayerIdx_leftmost _, ?_, ?_⟩
  · unfold RF2M.local_scor_index
    rw [hds]
  · rw [hred]
    by_cases hv : v.mIsPlayer = true
    · rw [if_pos hv, if_pos hv]
    · rw [if_neg hv, if_neg hv]
  · intro hall
    have h1 := scanPlayerIdx_eq_invalid hall 0
    have hv : v.mIsPlayer = false := hall v (pyGet_mem hget)
    refine ⟨h1, ?_⟩
    rw [hred, if_neg (by rw [hv]; exact Bool.false_ne_true), h1]

/-- A region caching a coherent copy of the buffer b. -/
def region_with (b : RF2Buf) : Region :=
  { instOpen := true, access_mode := 0, live := b,
    cache := some (MapView.copyOf b), sharing := false }

/-- A one-car scoring buffer with the player flagged at slot 0. -/
def c5w_buf : RF2Buf :=
  { mVersionUpdateBegin := 1, mVersionUpdateEnd := 1, mNumVehicles := 1,
    mVehicles := [{ mID := 5, mIsPlayer := true }] }

/-- SyncData state reading the one-car scoring buffer. -/
def c5w_state : RF2M.SyncDataState :=
  { updating := false, paused := false, override_player_index := false,
    player_scor_index := INVALID_INDEX, player_scor := none, player_tele := none,
    tele_idx_dict := init_tele_dict, scor := region_with c5w_buf,
    tele := region_with c5w_buf, ext := region_with c5w_buf, ffb := region_with c5w_buf }

/-- C5 witness: on the one-car buffer both resolvers find slot 0. -/
theorem C5_amended_witness :
    RF2M.local_scor_index c5w_state = some (scanPlayerIdx c5w_buf.mVehicles 0) ∧
    SIS.find_local_scor_index c5w_buf.mVehicles 0 =
      some (if ({ mID := 5, mIsPlayer := true } : VehicleSlot).mIsPlayer = true
            then 0 else scanPlayerIdx c5w_buf.mVehicles 0) :=
  ⟨(C5_amended c5w_state c5w_buf 0 { mID := 5, mIsPlayer := true }
      (by decide) (by decide)).1,
   (C5_amended c5w_state c5w_buf 0 { mID := 5, mIsPlayer := true }
      (by decide) (by decide)).2.2.1⟩

lemma rf2m_copy_player_scor_updating {s s2 : RF2M.SyncDataState} {i : Int}
    (h : RF2M.copy_player_scor s i = some s2) : s2.updating = s.updating := by
  unfold RF2M.copy_player_scor at h
  split at h
  · exact absurd h (by simp)
  · split at h
    · exact absurd h (by simp)
    · simp only [Option.some.injEq] at h
      subst h
      rfl

lemma rf2m_copy_player_tele_updating {s s2 : RF2M.SyncDataState} {i : Int}
    (h : RF2M.copy_player_tele s i = some s2) : s2.updating = s.updating := by
  unfold RF2M.copy_player_tele at h
  split at h
  · exact absurd h (by simp)
  · split at h
    · exact absurd h (by simp)
    · simp only [Option.some.injEq] at h
      subst h
      rfl

lemma rf2m_sync_player_data_updating {s : RF2M.SyncDataState} {b : Bool}
    {s2 : RF2M.SyncDataState}
    (h : RF2M.sync_player_data s = some (b, s2)) : s2.updating = s.updating := by
  simp only [RF2M.sync_player_data] at h
  have hphase : ∀ (s1 : RF2M.SyncDataState) (i : Int),
      (match RF2M.copy_player_scor s1 i with
        | none => none
        | some sa =>
          match RF2M.sync_tele_index sa sa.player_scor_index with
          | none => none
          | some ti =>
            match RF2M.copy_player_tele sa ti with
            | none => none
            | some sb => some (true, sb)) = some (b, s2) →
      s2.updating = s1.updating := by
    intro s1 i h1
    cases hsa : RF2M.copy_player_scor s1 i with
    | none => simp only [hsa] at h1; exact Option.noConfusion h1
    | some sa =>
      simp only [hsa] at h1
      cases hti : RF2M.sync_tele_index sa sa.player_scor_index with
      | none => simp only [hti] at h1; exact Option.noConfusion h1
      | some ti =>
        simp only [hti] at h1
        cases hsb : RF2M.copy_player_tele sa ti with
        | none => simp only [hsb] at h1; exact Option.noConfusion h1
        | some sb =>
          simp only [hsb, Option.some.injEq, Prod.mk.injEq] at h1
          obtain ⟨_, hs⟩ := h1
          subst hs
          calc sb.updating = sa.updating := rf2m_copy_player_tele_updating hsb
            _ = s1.updating := rf2m_copy_player_scor_updating hsa
  by_cases hov : s.override_player_index = false
  · rw [if_pos hov] at h
    cases hidx : RF2M.local_scor_index s with
    | none => simp only [hidx] at h; exact Option.noConfusion h
    | some idx =>
      simp only [hidx] at h
      by_cases hinv : idx = INVALID_INDEX
      · rw [if_pos hinv] at h
        simp only [Option.some.injEq, Prod.mk.injEq] at h
        obtain ⟨_, hs⟩ := h
        subst hs
        rfl
      · rw [if_neg hinv] at h
        exact hphase { s with player_scor_index := idx } idx h
  · rw [if_neg hov] at h
    exact hphase s s.player_scor_index h

lemma rf2m_create_mmap_updating {mode : Nat} {s s2 : RF2M.SyncDataState}
    (h : RF2M.create_mmap mode s = some s2) : s2.updating = s.updating := by
  unfold RF2M.create_mmap at h
  split at h
  · exact absurd h (by simp)
  · split at h
    · exact absurd h (by simp)
    · split at h
      · exact absurd h (by simp)
      · split at h
        · exact absurd h (by simp)
        · simp only [Option.some.injEq] at h
          subst h
          rfl

/-- A coherent one-car buffer for lifecycle runs. -/
def c6_buf : RF2Buf :=
  { mVersionUpdateBegin := 3, mVersionUpdateEnd := 3, mNumVehicles := 1,
    mVehicles := [{ mID := 9, mIsPlayer := true }] }

/-- A closed, never-opened region mapping the coherent one-car
buffer. -/
def c6_region : Region :=
  { instOpen := false, access_mode := 0, live := c6_buf, cache := none, sharing := false }

/-- A freshly constructed SimInfoSync instance (state of __init__). -/
def c6_init : SIS.SimInfoState :=
  { stopped := true, updating := false, restarting := false, paused := true,
    override_player_index := false, player_scor_index := INVALID_INDEX,
    player_tele_index := INVALID_INDEX, player_scor_mid := 0,
    player_scor := none, player_tele := none, access_mode := 0,
    info_scor := c6_region, info_tele := c6_region,
    info_ext := c6_region, info_ffb := c6_region }

/-- C6 counterexample: starting a fresh SimInfoSync and stopping it
succeeds, but the second stop() raises (close_mmap re-runs copy_access
on the already-closed scoring mapping), so stop is not idempotent in
sim_info_sync.py. -/
theorem C6_counterexample :
    (((SIS.start c6_init).bind (SIS.stop false)).isSome = true) ∧
    (((SIS.start c6_init).bind (SIS.stop false)).bind (SIS.stop false) = none) := by decide

/-- C6 amended: SyncData.stop of rF2MMap.py is guarded by the updating
flag, so a second stop (or any stop of a stopped engine) is an error
free no-op, and start after stop resumes the update loop in both
revisions; SimInfoSync.stop of sim_info_sync.py has no such guard and
raises when its mappings are already closed. -/
theorem C6_amended (lr : Bool) (mode : Nat) (s : RF2M.SyncDataState)
    (hstopped : s.updating = false) :
    RF2M.stop lr s = some s ∧
    (∀ s2, RF2M.start mode s = some s2 → s2.updating = true) ∧
    (∀ u u2 : SIS.SimInfoState, SIS.start u = some u2 → u.stopped = true →
      u2.updating = true) ∧
    (∀ u : SIS.SimInfoState, u.info_scor.instOpen = false → SIS.stop lr u = none) := by
  refine ⟨?_, ?_, ?_, ?_⟩
  · unfold RF2M.stop
    rw [if_neg (by rw [hstopped]; exact Bool.false_ne_true)]
  · intro s2 h
    unfold RF2M.start at h
    rw [if_neg (by rw [hstopped]; exact Bool.false_ne_true)] at h
    cases hs1 : RF2M.create_mmap mode { s with updating := true } with
    | none => simp only [hs1] at h; exact Option.noConfusion h
    | some s1 =>
      simp only [hs1] at h
      have hup1 : s1.updating = true := rf2m_create_mmap_updating hs1
      cases hdt : s1.tele.dataBuf with
      | none => simp only [hdt] at h; exact Option.noConfusion h
      | some dt =>
        simp only [hdt] at h
        cases hd : RF2M.update_tele_dict dt.mVehicles dt.mNumVehicles s1.tele_idx_dict with
        | none => simp only [hd] at h; exact Option.noConfusion h
        | some d =>
          simp only [hd] at h
          cases hr : RF2M.sync_player_data { s1 with tele_idx_dict := d } with
          | none => simp only [hr] at h; exact Option.noConfusion h
          | some r =>
            simp only [hr] at h
            obtain ⟨bb, s3⟩ := r
            have hup3 := rf2m_sync_player_data_updating hr
            cases bb with
            | true =>
              simp only [Option.some.injEq] at h
              subst h
              exact hup3.trans hup1
            | false =>
              cases hs4 : RF2M.copy_player_scor s3 INVALID_INDEX with
              | none => simp only [hs4] at h; exact Option.noConfusion h
              | some s4 =>
                simp only [hs4] at h
                cases hs5 : RF2M.copy_player_tele s4 INVALID_INDEX with
                | none => simp only [hs5] at h; exact Option.noConfusion h
                | some s5 =>
                  simp only [hs5, Option.some.injEq] at h
                  subst h
                  exact (rf2m_copy_player_tele_updating hs5).trans
                    ((rf2m_copy_player_scor_updating hs4).trans (hup3.trans hup1))
  · intro u u2 h hstop
    unfold SIS.start at h
    rw [if_neg (by simp [hstop])] at h
    split at h
    · exact absurd h (by simp)
    · split at h
      · exact absurd h (by simp)
      · simp only [Option.some.injEq] at h
        subst h
        rfl
  · intro u hclosed
    unfold SIS.stop SIS.close_mmap SIS.close SIS.copy_access
    dsimp only
    rw [hclosed]
    rfl

/-- C6 witness: a running SyncData state over open one-car regions. -/
def c6w_state : RF2M.SyncDataState :=
  { updating := false, paused := false, override_player_index := false,
    player_scor_index := 0, player_scor := none, player_tele := none,
    tele_idx_dict := init_tele_dict, scor := region_with c6_buf,
    tele := region_with c6_buf, ext := region_with c6_buf, ffb := region_with c6_buf }

/-- C6 amended witness: a stopped SyncData engine accepts stop as a
no-op and start resumes it. -/
theorem C6_amended_witness :
    RF2M.stop false c6w_state = some c6w_state ∧
    (∀ s2, RF2M.start 0 c6w_state = some s2 → s2.updating = true) :=
  ⟨(C6_amended false 0 c6w_state (by decide)).1,
   (C6_amended false 0 c6w_state (by decide)).2.1⟩

lemma rf2m_close_sharing {lr : Bool} {r r3 : Region}
    (h : RF2M.close lr r = some r3) : r3.sharing = false := by
  unfold RF2M.close RF2M.buffer_copy at h
  by_cases ho : r.instOpen = false
  · rw [if_pos ho] at h
    exact Option.noConfusion h
  · rw [if_neg ho, if_pos (Or.inr rfl)] at h
    dsimp only at h
    by_cases hlr : lr = true
    · rw [if_pos hlr] at h
      simp only [Option.some.injEq] at h
      subst h
      rfl
    · rw [if_neg hlr] at h
      simp only [Option.some.injEq] at h
      subst h
      rfl

lemma sis_close_sharing {lr : Bool} {r r3 : Region}
    (h : SIS.close lr r = some r3) : r3.sharing = false := by
  unfold SIS.close SIS.copy_access at h
  by_cases ho : r.instOpen = false
  · rw [if_pos ho] at h
    exact Option.noConfusion h
  · rw [if_neg ho] at h
    have hfin : ∀ x : Region,
        (match some x with
          | none => none
          | some r1 =>
            let r2 := { r1 with sharing := false }
            if lr then some r2 else some { r2 with instOpen := false }) = some r3 →
        r3.sharing = false := by
      intro x hx
      dsimp only at hx
      by_cases hlr : lr = true
      · rw [if_pos hlr] at hx
        simp only [Option.some.injEq] at hx
        subst hx
        rfl
      · rw [if_neg hlr] at hx
        simp only [Option.some.injEq] at hx
        subst hx
        rfl
    by_cases hv : version_check r.live = true
    · rw [if_pos hv] at h
      exact hfin _ h
    · rw [if_neg hv] at h
      by_cases hc : r.cache = none
      · rw [if_pos hc] at h
        exact hfin _ h
      · rw [if_neg hc] at h
        exact hfin _ h

/-- A region holding a torn live buffer while caching a previously
validated good snapshot. -/
def c7_region : Region :=
  { instOpen := true, access_mode := 0, live := tornBuf,
    cache := some (MapView.copyOf goodBuf), sharing := false }

/-- C7 counterexample: RF2MMap.close of rF2MMap.py takes its final copy
with the version check skipped, so closing a region whose live buffer is
torn overwrites the cached good snapshot with the torn copy instead of
performing a validating (coherent) final read. -/
theorem C7_counterexample :
    tornBuf.mVersionUpdateBegin ≠ tornBuf.mVersionUpdateEnd ∧
    RF2M.close false c7_region =
      some { c7_region with cache := some (MapView.copyOf tornBuf), instOpen := false } ∧
    (some (MapView.copyOf tornBuf) : Option MapView) ≠ some (MapView.copyOf goodBuf) := by
  decide

/-- C7 amended: on close, both revisions catch the BufferError raised
when the mapping still has live external references (close returns
normally, leaving the mapping open in that case) and then release the
mapping otherwise; the final read before release is a validated
coherent read only in sim_info_sync.py (which keeps the previous cached
snapshot on a torn buffer), while rF2MMap.py copies the live buffer
unconditionally, torn or not. -/
theorem C7_amended (lr : Bool) (r : Region) (hopen : r.instOpen = true) :
    (∃ r2, RF2M.close lr r = some r2 ∧ r2.cache = some (MapView.copyOf r.live) ∧
      r2.sharing = false ∧ r2.instOpen = lr) ∧
    (r.live.mVersionUpdateEnd = r.live.mVersionUpdateBegin →
      ∃ r2, SIS.close lr r = some r2 ∧ r2.cache = some (MapView.copyOf r.live) ∧
        r2.sharing = false ∧ r2.instOpen = lr) ∧
    (r.live.mVersionUpdateEnd ≠ r.live.mVersionUpdateBegin → r.cache ≠ none →
      ∃ r2, SIS.close lr r = some r2 ∧ r2.cache = r.cache ∧
        r2.sharing = false ∧ r2.instOpen = lr) := by
  have hno : ¬ r.instOpen = false := by rw [hopen]; simp
  refine ⟨?_, ?_, ?_⟩
  · cases lr with
    | true =>
      refine ⟨{ r with cache := some (MapView.copyOf r.live), sharing := false },
        ?_, rfl, rfl, hopen⟩
      unfold RF2M.close RF2M.buffer_copy
      rw [if_neg hno, if_pos (Or.inr rfl)]
      rfl
    | false =>
      refine ⟨{ r with
                  cache := some (MapView.copyOf r.live), sharing := false,
                  instOpen := false },
        ?_, rfl, rfl, rfl⟩
      unfold RF2M.close RF2M.buffer_copy
      rw [if_neg hno, if_pos (Or.inr rfl)]
      rfl
  · intro heq
    have hv : version_check r.live = true := by
      simp [version_check, heq]
    cases lr with
    | true =>
      refine ⟨{ r with cache := some (MapView.copyOf r.live), sharing := false },
        ?_, rfl, rfl, hopen⟩
      unfold SIS.close SIS.copy_access
      rw [if_neg hno, if_pos hv]
      rfl
    | false =>
      refine ⟨{ r with
                  cache := some (MapView.copyOf r.live), sharing := false,
                  instOpen := false },
        ?_, rfl, rfl, rfl⟩
      unfold SIS.close SIS.copy_access
      rw [if_neg hno, if_pos hv]
      rfl
  · intro hne hc
    have hv : ¬ version_check r.live = true := by
      simp [version_check]
      exact hne
    cases lr with
    | true =>
      refine ⟨{ r with sharing := false }, ?_, rfl, rfl, hopen⟩
      unfold SIS.close SIS.copy_access
      rw [if_neg hno, if_neg hv, if_neg hc]
      rfl
    | false =>
      refine ⟨{ r with sharing := false, instOpen := false }, ?_, rfl, rfl, rfl⟩
      unfold SIS.close SIS.copy_access
      rw [if_neg hno, if_neg hv, if_neg hc]
      rfl

/-- C7 witness: closing an open region holding a coherent buffer keeps
a copy of it and releases the mapping in both revisions. -/
theorem C7_amended_witness :
    (∃ r2, RF2M.close false (region_with goodBuf) = some r2 ∧
      r2.cache = some (MapView.copyOf goodBuf) ∧
      r2.sharing = false ∧ r2.instOpen = false) ∧
    (∃ r2, SIS.close false (region_with goodBuf) = some r2 ∧
      r2.cache = some (MapView.copyOf goodBuf) ∧
      r2.sharing = false ∧ r2.instOpen = false) :=
  ⟨(C7_amended false (region_with goodBuf) (by decide)).1,
   (C7_amended false (region_with goodBuf) (by decide)).2.1 (by decide)⟩

/-- C8: once a direct-mode update has bound the output to the live
mapping (sharing flag set), every further direct-mode update is a no-op
leaving the region state - including the bound output - unchanged, in
both revisions; and close resets the direct-access flag. -/
theorem C8_direct_idempotent (r r2 : Region) (hm : r.access_mode ≠ 0)
    (h : RF2M.update r = some r2) :
    RF2M.update r2 = some r2 ∧ r2.sharing = true ∧
    (r.sharing = false → r2.cache = some MapView.liveView) ∧
    (∀ lr r3, RF2M.close lr r2 = some r3 → r3.sharing = false) ∧
    (∀ u u2 : Region, u.access_mode ≠ 0 → SIS.update u = some u2 →
      SIS.update u2 = some u2 ∧ u2.sharing = true ∧
      (u.sharing = false → u2.cache = some MapView.liveView) ∧
      (∀ lr u3, SIS.close lr u2 = some u3 → u3.sharing = false)) := by
  have hsis : ∀ u u2 : Region, u.access_mode ≠ 0 → SIS.update u = some u2 →
      SIS.update u2 = some u2 ∧ u2.sharing = true ∧
      (u.sharing = false → u2.cache = some MapView.liveView) ∧
      (∀ lr u3, SIS.close lr u2 = some u3 → u3.sharing = false) := by
    intro u u2 hmu hu
    unfold SIS.update SIS.direct_access at hu
    rw [if_pos hmu] at hu
    by_cases hsu : u.sharing = true
    · rw [if_pos hsu] at hu
      simp only [Option.some.injEq] at hu
      subst hu
      refine ⟨?_, hsu, ?_, ?_⟩
      · unfold SIS.update SIS.direct_access
        rw [if_pos hmu, if_pos hsu]
      · intro hf
        rw [hf] at hsu
        exact Bool.noConfusion hsu
      · intro lr u3 h3
        exact sis_close_sharing h3
    · rw [if_neg hsu] at hu
      by_cases hou : u.instOpen = false
      · rw [if_pos hou] at hu
        exact Option.noConfusion hu
      · rw [if_neg hou] at hu
        simp only [Option.some.injEq] at hu
        subst hu
        refine ⟨?_, rfl, fun _ => rfl, ?_⟩
        · simp [SIS.update, SIS.direct_access, hmu]
        · intro lr u3 h3
          exact sis_close_sharing h3
  unfold RF2M.update RF2M.buffer_share at h
  rw [if_pos hm] at h
  by_cases hs : r.sharing = false
  · rw [if_pos hs] at h
    by_cases ho : r.instOpen = false
    · rw [if_pos ho] at h
      exact Option.noConfusion h
    · rw [if_neg ho] at h
      simp only [Option.some.injEq] at h
      subst h
      refine ⟨?_, rfl, fun _ => rfl, ?_, hsis⟩
      · simp [RF2M.update, RF2M.buffer_share, hm]
      · intro lr r3 h3
        exact rf2m_close_sharing h3
  · rw [if_neg hs] at h
    simp only [Option.some.injEq] at h
    subst h
    have hst : r.sharing = true := by
      cases hb : r.sharing with
      | false => exact absurd hb hs
      | true => rfl
    refine ⟨?_, hst, ?_, ?_, hsis⟩
    · unfold RF2M.update RF2M.buffer_share
      rw [if_pos hm, if_neg hs]
    · intro hf
      exact absurd hf hs
    · intro lr r3 h3
      exact rf2m_close_sharing h3

/-- A direct-mode region whose mapping is open and not yet bound. -/
def c8w_region : Region :=
  { instOpen := true, access_mode := 1, live := goodBuf, cache := none, sharing := false }

/-- C8 witness: the first direct-mode update binds the live view; the
second is a no-op. -/
theorem C8_direct_idempotent_witness :
    RF2M.update { c8w_region with sharing := true, cache := some MapView.liveView } =
      some { c8w_region with sharing := true, cache := some MapView.liveView } ∧
    (∀ u u2 : Region, u.access_mode ≠ 0 → SIS.update u = some u2 →
      SIS.update u2 = some u2 ∧ u2.sharing = true ∧
      (u.sharing = false → u2.cache = some MapView.liveView) ∧
      (∀ lr u3, SIS.close lr u2 = some u3 → u3.sharing = false)) :=
  ⟨(C8_direct_idempotent c8w_region
      { c8w_region with sharing := true, cache := some MapView.liveView }
      (by decide) (by decide)).1,
   (C8_direct_idempotent c8w_region
      { c8w_region with sharing := true, cache := some MapView.liveView }
      (by decide) (by decide)).2.2.2.2⟩

/-- C9: when an index lookup fails and the sentinel INVALID_INDEX = -1
reaches a Python subscription, the operation returns (or caches) the
last vehicle slot of the array instead of failing or producing an empty
value: SyncData.sync_tele_index yields -1 on a dictionary miss and
RF2SM.rf2TeleVeh then returns the last telemetry slot;
SyncData.copy_player_scor at the default index caches the last scoring
slot; SimInfoSync.sync_tele_index yields -1 when no telemetry mID
matches and SimInfoSync.rf2TeleVeh then returns the last telemetry
slot; SimInfoSync.copy_mmap_player caches the last slots of both
arrays. -/
theorem C9_sentinel_last_slot
    (t : RF2M.SyncDataState) (ds dt : RF2Buf) (idx : Int) (vs : VehicleSlot)
    (u : SIS.SimInfoState) (us ut : RF2Buf) (uidx : Int) (uvs uvt : VehicleSlot)
    (hne_s : ds.mVehicles ≠ []) (hne_t : dt.mVehicles ≠ [])
    (hne_us : us.mVehicles ≠ []) (hne_ut : ut.mVehicles ≠ [])
    (hds : t.scor.dataBuf = some ds) (hdt : t.tele.dataBuf = some dt)
    (hvs : pyGet ds.mVehicles idx = some vs)
    (hdict : t.tele_idx_dict.find? (fun p => p.1 == vs.mID) = none)
    (hus : u.info_scor.dataBuf = some us) (hut : u.info_tele.dataBuf = some ut)
    (huvs : pyGet us.mVehicles uidx = some uvs)
    (huvt : pyGet ut.mVehicles uidx = some uvt)
    (humiss : ∀ v ∈ ut.mVehicles, v.mID ≠ uvs.mID) :
    RF2M.sync_tele_index t idx = some INVALID_INDEX ∧
    RF2M.rf2sm_rf2TeleVeh t (some idx) = some (dt.mVehicles.getLast hne_t) ∧
    RF2M.copy_player_scor t INVALID_INDEX =
      some { t with player_scor := some (ds.mVehicles.getLast hne_s) } ∧
    SIS.sync_tele_index u uidx = some INVALID_INDEX ∧
    SIS.rf2TeleVeh u (some uidx) = some (ut.mVehicles.getLast hne_ut) ∧
    SIS.copy_mmap_player u =
      some { u with
               player_scor := some (us.mVehicles.getLast hne_us),
               player_tele := some (ut.mVehicles.getLast hne_ut) } := by
  have hsync_t : RF2M.sync_tele_index t idx = some INVALID_INDEX := by
    unfold RF2M.sync_tele_index
    simp only [hds, hvs]
    unfold dictGet
    rw [hdict]
  have hsync_u : SIS.sync_tele_index u uidx = some INVALID_INDEX := by
    unfold SIS.sync_tele_index
    simp only [hus, huvs, hut, huvt]
    rw [if_neg (humiss uvt (pyGet_mem huvt))]
    rw [scanMIDIdx_eq_invalid humiss 0]
  refine ⟨hsync_t, ?_, ?_, hsync_u, ?_, ?_⟩
  · unfold RF2M.rf2sm_rf2TeleVeh
    simp only [hsync_t, hdt]
    exact pyGet_invalid hne_t
  · unfold RF2M.copy_player_scor
    simp only [hds]
    rw [pyGet_invalid hne_s]
  · unfold SIS.rf2TeleVeh
    simp only [hsync_u, hut]
    exact pyGet_invalid hne_ut
  · unfold SIS.copy_mmap_player
    simp only [hus, hut]
    rw [pyGet_invalid hne_us, pyGet_invalid hne_ut]

/-- Scoring buffer whose only car has a mID outside the initial
telemetry dictionary key range. -/
def c9_scor_buf : RF2Buf :=
  { mVersionUpdateBegin := 1, mVersionUpdateEnd := 1, mNumVehicles := 1,
    mVehicles := [{ mID := 200, mIsPlayer := true }] }

/-- Telemetry buffer whose only car does not match mID 200. -/
def c9_tele_buf : RF2Buf :=
  { mVersionUpdateBegin := 1, mVersionUpdateEnd := 1, mNumVehicles := 1,
    mVehicles := [{ mID := 7, mIsPlayer := false }] }

/-- SyncData state over the mismatching buffers with the initial
telemetry dictionary. -/
def c9_t : RF2M.SyncDataState :=
  { updating := true, paused := false, override_player_index := false,
    player_scor_index := 0, player_scor := none, player_tele := none,
    tele_idx_dict := init_tele_dict, scor := region_with c9_scor_buf,
    tele := region_with c9_tele_buf, ext := region_with c9_scor_buf,
    ffb := region_with c9_scor_buf }

/-- SimInfoSync state over the mismatching buffers. -/
def c9_u : SIS.SimInfoState :=
  { stopped := false, updating := true, restarting := false, paused := false,
    override_player_index := false, player_scor_index := 0,
    player_tele_index := INVALID_INDEX, player_scor_mid := 0,
    player_scor := none, player_tele := none, access_mode := 0,
    info_scor := region_with c9_scor_buf, info_tele := region_with c9_tele_buf,
    info_ext := region_with c9_scor_buf, info_ffb := region_with c9_scor_buf }

set_option maxRecDepth 10000 in
/-- C9 witness: with the only scoring mID equal to 200 (absent from the
dictionary and from telemetry), both rf2TeleVeh paths return the last
telemetry slot. -/
theorem C9_sentinel_last_slot_witness :
    RF2M.rf2sm_rf2TeleVeh c9_t (some 0) =
      some (c9_tele_buf.mVehicles.getLast (by decide)) ∧
    SIS.rf2TeleVeh c9_u (some 0) =
      some (c9_tele_buf.mVehicles.getLast (by decide)) :=
  ⟨(C9_sentinel_last_slot c9_t c9_scor_buf c9_tele_buf 0
      { mID := 200, mIsPlayer := true }
      c9_u c9_scor_buf c9_tele_buf 0
      { mID := 200, mIsPlayer := true } { mID := 7, mIsPlayer := false }
      (by decide) (by decide) (by decide) (by decide) (by decide) (by decide)
      (by decide) (by decide) (by decide) (by decide) (by decide) (by decide)
      (by decide)).2.1,
   (C9_sentinel_last_slot c9_t c9_scor_buf c9_tele_buf 0
      { mID := 200, mIsPlayer := true }
      c9_u c9_scor_buf c9_tele_buf 0
      { mID := 200, mIsPlayer := true } { mID := 7, mIsPlayer := false }
      (by decide) (by decide) (by decide) (by decide) (by decide) (by decide)
      (by decide) (by decide) (by decide) (by decide) (by decide) (by decide)
      (by decide)).2.2.2.2.1⟩

/-- C10: RF2SM.setPlayerIndex stores the argument clamped by
min(max(index, INVALID_INDEX), MAX_VEHICLES - 1), so the stored index
always lies between -1 and 127; SimInfoSync.setPlayerIndex stores the
argument unclamped, as witnessed by the out-of-range value 128. -/
theorem C10_clamp (index : Int) (t : RF2M.SyncDataState) (u : SIS.SimInfoState) :
    (RF2M.rf2sm_setPlayerIndex t index).player_scor_index
      = min (max index INVALID_INDEX) ((MAX_VEHICLES : Int) - 1) ∧
    INVALID_INDEX ≤ (RF2M.rf2sm_setPlayerIndex t index).player_scor_index ∧
    (RF2M.rf2sm_setPlayerIndex t index).player_scor_index ≤ (MAX_VEHICLES : Int) - 1 ∧
    (SIS.setPlayerIndex u index).player_scor_index = index ∧
    (SIS.setPlayerIndex u 128).player_scor_index = 128 ∧
    ¬ ((SIS.setPlayerIndex u 128).player_scor_index ≤ (MAX_VEHICLES : Int) - 1) := by
  refine ⟨rfl, ?_, ?_, rfl, rfl, ?_⟩
  · unfold RF2M.rf2sm_setPlayerIndex INVALID_INDEX MAX_VEHICLES
    dsimp only
    omega
  · unfold RF2M.rf2sm_setPlayerIndex INVALID_INDEX MAX_VEHICLES
    dsimp only
    omega
  · unfold SIS.setPlayerIndex MAX_VEHICLES
    dsimp only
    omega

end PyRF2
